import Mathlib

/- Verification of the interactive shell in src/app/main.py against its
   specification, via a shallow embedding.  The embedding covers the
   tokenizer (shlex.split in POSIX whitespace-split mode), the dispatcher
   (CommandHandler.handle_command and one iteration of CommandHandler.run),
   the history manager (the readline history list together with
   CommandHandler.last_append_index), the cd handler (pathlib.Path string
   normalisation, Path.expanduser and os.chdir), the type handler, and the
   tab completer (Autocompleter).  Files are modelled as lists of lines;
   the filesystem, PATH resolution (shutil.which) and user home directories
   are abstract functions supplied as context. -/

namespace ShellSpec

/-- Python str.strip() on the ASCII whitespace characters
    (space, tab, newline, carriage return, vertical tab, form feed). -/
def pyIsSpace (c : Char) : Bool :=
  c == ' ' || c == '\t' || c == '\n' || c == '\r' || c == Char.ofNat 11 || c == Char.ofNat 12

def pyStrip (s : String) : String :=
  String.mk (((s.toList.dropWhile pyIsSpace).reverse.dropWhile pyIsSpace).reverse)

/-- The readline history together with CommandHandler.last_append_index.
    History indices are 1-based: readline.get_history_item i is entries[i-1],
    readline.get_current_history_length is entries.length. -/
structure HistoryState where
  entries : List String
  lastAppendIndex : Nat
deriving DecidableEq

/-- CommandHandler.__init__ starts with last_append_index = 1 and (absent a
    HISTFILE load) an empty readline history. -/
def initHistoryState : HistoryState := ⟨[], 1⟩

/-- readline.add_history: appends the line unconditionally. -/
def record (st : HistoryState) (line : String) : HistoryState :=
  { st with entries := st.entries ++ [line] }

/-- CommandHandler.write_to_history_file: overwrites the file with
    get_history_item(i) for i in range(1, length + 1), one per line.
    The file is modelled as its list of lines. -/
def write_to_history_file (st : HistoryState) : List String :=
  (List.range' 1 (st.entries.length + 1 - 1)).filterMap (fun i => st.entries.get? (i - 1))

/-- CommandHandler.append_to_history: appends get_history_item(i) for
    i in range(last_append_index, length + 1) to the end of the file, then
    sets last_append_index := length + 1. -/
def append_to_history (st : HistoryState) (file : List String) :
    List String × HistoryState :=
  (file ++ (List.range' st.lastAppendIndex (st.entries.length + 1 - st.lastAppendIndex)).filterMap
      (fun i => st.entries.get? (i - 1)),
   { st with lastAppendIndex := st.entries.length + 1 })

/-- CommandHandler.handle_history_from_filename: readline.clear_history, then
    add_history of the synthetic "history -r FILE" entry, then open the file.
    If the open fails, the FileNotFoundError escapes uncaught (Bool result
    true) with the history already clobbered; otherwise every line of the
    file is added stripped.  last_append_index is not touched either way. -/
def handle_history_from_filename (st : HistoryState) (content : Option (List String))
    (filename : String) : HistoryState × Bool :=
  let cleared : HistoryState := { st with entries := ["history -r " ++ filename] }
  match content with
  | none => (cleared, true)
  | some lines => ({ cleared with entries := cleared.entries ++ lines.map pyStrip }, false)

/-- The shlex posix-mode lexer state: outside any quoted construct, inside a
    single- or double-quoted section, or right after a backslash (outside or
    inside a double-quoted section). -/
inductive LexMode
  | normal
  | inSingle
  | inDouble
  | escaped
  | escapedInDouble
deriving DecidableEq

/-- The exceptions the python code can raise while handling one line: the two
    shlex ValueErrors, the unpacking ValueError when shlex.split returns no
    tokens, int() on a non-numeric literal, FileNotFoundError escaping
    handle_history_from_filename, NotADirectoryError escaping os.chdir, and
    RuntimeError from Path.expanduser on an unresolvable user home. -/
inductive PyError
  | noClosingQuotation
  | noEscapedCharacter
  | unpackEmpty
  | invalidIntLiteral
  | fileNotFound
  | notADirectory
  | runtimeErrorHome
deriving DecidableEq

def squote : Char := Char.ofNat 39

def dquote : Char := Char.ofNat 34

def bslash : Char := Char.ofNat 92

/-- shlex.whitespace. -/
def isShlexWS (c : Char) : Bool :=
  c == ' ' || c == '\t' || c == '\r' || c == '\n'

/-- The core of shlex.split (posix mode, whitespace_split, no comments):
    cur is the token being built (none when no token is open; quotes and
    escapes open an empty token, so empty quoted strings are emitted) and acc
    the finished tokens.  EOF inside a quote raises
    ValueError("No closing quotation"); EOF right after an escape character
    raises ValueError("No escaped character").  Inside double quotes a
    backslash escapes only the double quote and the backslash itself and is
    otherwise kept literally; inside single quotes nothing is special. -/
def shlexCore : List Char → LexMode → Option (List Char) → List (List Char) →
    Except PyError (List (List Char))
  | [], .normal, none, acc => .ok acc
  | [], .normal, some t, acc => .ok (acc ++ [t])
  | [], .inSingle, _, _ => .error .noClosingQuotation
  | [], .inDouble, _, _ => .error .noClosingQuotation
  | [], .escaped, _, _ => .error .noEscapedCharacter
  | [], .escapedInDouble, _, _ => .error .noEscapedCharacter
  | c :: rest, .normal, cur, acc =>
    if isShlexWS c then
      match cur with
      | some t => shlexCore rest .normal none (acc ++ [t])
      | none => shlexCore rest .normal none acc
    else if c == squote then shlexCore rest .inSingle (some (cur.getD [])) acc
    else if c == dquote then shlexCore rest .inDouble (some (cur.getD [])) acc
    else if c == bslash then shlexCore rest .escaped (some (cur.getD [])) acc
    else shlexCore rest .normal (some (cur.getD [] ++ [c])) acc
  | c :: rest, .inSingle, cur, acc =>
    if c == squote then shlexCore rest .normal cur acc
    else shlexCore rest .inSingle (some (cur.getD [] ++ [c])) acc
  | c :: rest, .inDouble, cur, acc =>
    if c == dquote then shlexCore rest .normal cur acc
    else if c == bslash then shlexCore rest .escapedInDouble cur acc
    else shlexCore rest .inDouble (some (cur.getD [] ++ [c])) acc
  | c :: rest, .escaped, cur, acc =>
    shlexCore rest .normal (some (cur.getD [] ++ [c])) acc
  | c :: rest, .escapedInDouble, cur, acc =>
    if c == dquote || c == bslash then
      shlexCore rest .inDouble (some (cur.getD [] ++ [c])) acc
    else shlexCore rest .inDouble (some (cur.getD [] ++ [bslash, c])) acc

/-- shlex.split. -/
def shlexSplit (s : String) : Except PyError (List String) :=
  (shlexCore s.toList LexMode.normal none []).map (fun l => l.map String.mk)

/-- CommandHandler.split_command: command, *arg = shlex.split(command);
    unpacking an empty token list raises ValueError (unpackEmpty). -/
def split_command (s : String) : Except PyError (String × List String) :=
  match shlexSplit s with
  | .error e => .error e
  | .ok [] => .error .unpackEmpty
  | .ok (c :: args) => .ok (c, args)

/-- Does the second list start with the first? -/
def startsWithL {α : Type} [BEq α] : List α → List α → Bool
  | [], _ => true
  | _ :: _, [] => false
  | a :: as, b :: bs => a == b && startsWithL as bs

/-- Does the first list occur contiguously inside the second? -/
def containsSubL {α : Type} [BEq α] : List α → List α → Bool
  | sub, [] => startsWithL sub []
  | sub, b :: bs => startsWithL sub (b :: bs) || containsSubL sub bs

/-- Python substring containment, sub in s. -/
def strContainsSub (s sub : String) : Bool :=
  containsSubL sub.toList s.toList

def is_a_redirect (command : String) : Bool :=
  strContainsSub command ">" || strContainsSub command "1>"

def is_a_pipe (command : String) : Bool :=
  strContainsSub command "|"

/-- CommandHandler.TYPES_BUILTIN; note that "cd" is absent and "history"
    present. -/
def TYPES_BUILTIN : List String := ["echo", "type", "exit", "pwd", "history"]

/-- CommandHandler.TYPE_TEMPLATE instantiated with its argument. -/
def TYPE_TEMPLATE (arg : String) : String := arg ++ " is a shell builtin"

/-- CommandHandler.handle_type: joins the argument list, prefers the builtin
    set, then shutil.which, else "not found". -/
def handle_type (which : String → Option String) (arg : List String) : String :=
  let a := String.join arg
  if a ∈ TYPES_BUILTIN then TYPE_TEMPLATE a
  else
    match which a with
    | some pathname => pathname
    | none => a ++ ": not found"

def digitsToNat (l : List Char) : Nat :=
  l.foldl (fun a c => a * 10 + (c.toNat - 48)) 0

/-- Python int(s): optional surrounding whitespace, optional sign, at least
    one digit (digit-group underscores are not modelled). -/
def pyToInt (s : String) : Option Int :=
  match (pyStrip s).toList with
  | '+' :: ds =>
    if !ds.isEmpty && ds.all Char.isDigit then some (digitsToNat ds : Int) else none
  | '-' :: ds =>
    if !ds.isEmpty && ds.all Char.isDigit then some (-(digitsToNat ds : Int)) else none
  | ds =>
    if !ds.isEmpty && ds.all Char.isDigit then some (digitsToNat ds : Int) else none

/-- readline.get_history_item at a (possibly out-of-range) 1-based index:
    None outside 1..length. -/
def historyItem (entries : List String) (i : Int) : Option String :=
  if 1 ≤ i ∧ i ≤ (entries.length : Int) then entries.get? (i - 1).toNat else none

/-- One printed history line, f"    {i}  {item}"; Python renders a missing
    item as None. -/
def fmtHistoryLine (i : Int) (item : Option String) : String :=
  "    " ++ toString i ++ "  " ++ item.getD "None"

/-- CommandHandler.handle_history: prints every entry with its index. -/
def handle_history (entries : List String) : List String :=
  (List.range entries.length).map
    (fun k => fmtHistoryLine ((k : Int) + 1) (historyItem entries ((k : Int) + 1)))

/-- CommandHandler.handle_indexed_history: n = int(arg) (ValueError on a bad
    literal), then prints the indices in range(length + 1 - n, length + 1);
    for n greater than the length this walks through indices at or below 0,
    printing None items, and for negative n it prints nothing. -/
def handle_indexed_history (entries : List String) (nStr : String) :
    List String × Option PyError :=
  match pyToInt nStr with
  | none => ([], some PyError.invalidIntLiteral)
  | some n =>
    let L : Int := entries.length
    ((List.range n.toNat).map
      (fun k => fmtHistoryLine (L + 1 - n + k) (historyItem entries (L + 1 - n + k))),
     none)

/-- str.split on a single separator character, over the character list. -/
def splitOnChar (c : Char) : List Char → List (List Char)
  | [] => [[]]
  | x :: xs =>
    let r := splitOnChar c xs
    if x == c then [] :: r
    else
      match r with
      | [] => [[x]]
      | h :: t => (x :: h) :: t

/-- The root of a POSIX pure path as pathlib keeps it: exactly two leading
    slashes are preserved, any other number collapses to one. -/
def rootOf (l : List Char) : List Char :=
  match l with
  | '/' :: '/' :: '/' :: _ => ['/']
  | '/' :: '/' :: _ => ['/', '/']
  | '/' :: _ => ['/']
  | _ => []

/-- The path segments pathlib keeps: empty segments (spurious slashes) and
    single dots are dropped. -/
def segsOf (l : List Char) : List (List Char) :=
  (splitOnChar '/' l).filter (fun t => !(t == [] || t == ['.']))

def renderPath (root : List Char) (segs : List (List Char)) : List Char :=
  if root == [] && segs == [] then ['.']
  else root ++ List.intercalate ['/'] segs

/-- str(pathlib.PurePosixPath(s)): spurious slashes and single-dot segments
    collapse, and the empty path prints as ".". -/
def pyPathStrL (l : List Char) : List Char := renderPath (rootOf l) (segsOf l)

def pyPathStr (s : String) : String := String.mk (pyPathStrL s.toList)

/-- pathlib.Path.expanduser over a path already in pyPathStr normal form: a
    leading "~" segment expands to the HOME directory, "~user" to that user's
    home via the abstract lookup (none models the RuntimeError raised when
    the lookup fails); every other path is returned unchanged. -/
def expanduser (home : String) (userHome : String → Option String) (p : String) :
    Option String :=
  match p.toList with
  | [] => some p
  | c :: rest =>
    if c == '~' then
      if rest == [] then some home
      else if rest.head? == some '/' then some (pyPathStr (home ++ String.mk rest))
      else
        let user := rest.takeWhile (fun x => x != '/')
        match userHome (String.mk user) with
        | some h => some (pyPathStr (h ++ String.mk (rest.drop user.length)))
        | none => none
    else some p

/-- What a path resolves to for os.chdir: an existing directory, an existing
    non-directory (NotADirectoryError), or nothing (FileNotFoundError). -/
inductive PathKind
  | dir
  | file
  | missing
deriving DecidableEq

/-- The os.chdir target: an absolute path stands alone, a relative path is
    resolved against the current working directory (".." components are kept
    as ordinary segments; the model has no symlinks). -/
def resolveChdir (cwd target : String) : String :=
  if rootOf target.toList == [] then
    String.mk (renderPath (rootOf cwd.toList) (segsOf cwd.toList ++ segsOf target.toList))
  else String.mk (pyPathStrL target.toList)

/-- The ambient context: shutil.which, HOME, the per-user home lookup, and
    what each path resolves to on the filesystem. -/
structure Ctx where
  which : String → Option String
  home : String
  userHome : String → Option String
  pathKind : String → PathKind

/-- CommandHandler.handle_cd: arg = Path("".join(arg)); os.chdir of
    arg.expanduser(), catching only FileNotFoundError, whose handler prints
    f"cd: {arg}: No such file or directory" with arg the normalised Path.
    Returns (new cwd, printed lines, escaped exception). -/
def handle_cd (ctx : Ctx) (cwd : String) (args : List String) :
    String × List String × Option PyError :=
  let argPath := pyPathStr (String.join args)
  match expanduser ctx.home ctx.userHome argPath with
  | none => (cwd, [], some PyError.runtimeErrorHome)
  | some target =>
    match ctx.pathKind (resolveChdir cwd target) with
    | PathKind.dir => (resolveChdir cwd target, [], none)
    | PathKind.missing =>
      (cwd, ["cd: " ++ argPath ++ ": No such file or directory"], none)
    | PathKind.file => (cwd, [], some PyError.notADirectory)

/-- Autocompleter.available_commands; note that "history" is absent although
    it is in the canonical builtin set, while "cd" is present. -/
def available_commands : List String := ["echo", "type", "exit", "pwd", "cd"]

/-- One entry of a PATH directory listing: its name and whether it is a
    regular file. -/
structure DirEntry where
  name : String
  isFile : Bool

/-- Autocompleter._get_path_executable: scans every PATH directory in order
    (missing directories skipped), yielding the name of every regular file
    for which shutil.which(name) succeeds; names are neither deduplicated
    nor sorted. -/
def get_path_executable (which : String → Option String)
    (pathDirs : List (Option (List DirEntry))) : List String :=
  (pathDirs.map (fun d =>
    match d with
    | none => []
    | some es => (es.filter (fun e => e.isFile && (which e.name).isSome)).map DirEntry.name)).flatten

/-- Autocompleter.get_options: the builtin tuple followed by the PATH scan. -/
def get_options (which : String → Option String)
    (pathDirs : List (Option (List DirEntry))) : List String :=
  available_commands ++ get_path_executable which pathDirs

/-- The matches Autocompleter.complete computes at state 0: every option
    starting with the text, or a copy of all options when the text is
    empty. -/
def complete_matches (options : List String) (text : String) : List String :=
  if text = "" then options else options.filter (fun o => o.startsWith text)

/-- Autocompleter.complete: the state-th match with a trailing space, None
    past the end. -/
def complete (options : List String) (text : String) (state : Nat) : Option String :=
  ((complete_matches options text).get? state).map (fun m => m ++ " ")

/-- The shell-visible state one dispatch step works on: the readline history
    with its append cursor, the working directory, the files (each a list of
    lines), and the exit flag. -/
structure ShellState where
  hist : HistoryState
  cwd : String
  files : String → Option (List String)
  mustExit : Bool

def updateFile (files : String → Option (List String)) (name : String)
    (content : List String) : String → Option (List String) :=
  fun n => if n = name then some content else files n

/-- The outcome of one dispatch: the new state, the lines printed, and the
    exception escaping the handler (aborting the read loop), if any. -/
structure StepResult where
  st : ShellState
  output : List String
  raised : Option PyError

/-- CommandHandler.handle_command: a line containing a redirection or pipe
    marker goes verbatim to subprocess.call(shell=True); otherwise the line
    is tokenized (exceptions from split_command escape) and dispatched by
    pattern: exit, echo, type, pwd, cd, the three history file forms,
    history with one argument, bare history, and finally external lookup via
    shutil.which or "command not found".  history -a reads the current file
    content (an absent file is created empty), history -w overwrites it. -/
def handle_command (ctx : Ctx) (s : ShellState) (command : String) : StepResult :=
  if is_a_redirect command || is_a_pipe command then
    ⟨s, [], none⟩
  else
    match split_command command with
    | .error e => ⟨s, [], some e⟩
    | .ok (name, arg) =>
      match name, arg with
      | "exit", _ => ⟨{ s with mustExit := true }, [], none⟩
      | "echo", a => ⟨s, [String.intercalate " " a], none⟩
      | "type", a => ⟨s, [handle_type ctx.which a], none⟩
      | "pwd", _ => ⟨s, [s.cwd], none⟩
      | "cd", a =>
        let r := handle_cd ctx s.cwd a
        ⟨{ s with cwd := r.1 }, r.2.1, r.2.2⟩
      | "history", ["-a", f] =>
        let r := append_to_history s.hist ((s.files f).getD [])
        ⟨{ s with hist := r.2, files := updateFile s.files f r.1 }, [], none⟩
      | "history", ["-w", f] =>
        ⟨{ s with files := updateFile s.files f (write_to_history_file s.hist) }, [], none⟩
      | "history", ["-r", f] =>
        let r := handle_history_from_filename s.hist (s.files f) f
        ⟨{ s with hist := r.1 }, [], if r.2 then some PyError.fileNotFound else none⟩
      | "history", [n] =>
        let r := handle_indexed_history s.hist.entries n
        ⟨s, r.1, r.2⟩
      | "history", _ => ⟨s, handle_history s.hist.entries, none⟩
      | _, _ =>
        match ctx.which name with
        | some _ => ⟨s, [], none⟩
        | none => ⟨s, [name ++ ": command not found"], none⟩

/-- One iteration of CommandHandler.run: the input line is stripped, added to
    the readline history unconditionally, then dispatched. -/
def run_step (ctx : Ctx) (s : ShellState) (rawInput : String) : StepResult :=
  let user_input := pyStrip rawInput
  handle_command ctx { s with hist := record s.hist user_input } user_input

/-- A context with empty PATH resolution in which every path is missing. -/
def ctx0 : Ctx :=
  { which := fun _ => none, home := "/root", userHome := fun _ => none,
    pathKind := fun _ => PathKind.missing }

/-- A context in which every path is an existing directory. -/
def ctxDir : Ctx :=
  { which := fun _ => none, home := "/root", userHome := fun _ => none,
    pathKind := fun _ => PathKind.dir }

/-- A fresh session at cwd "/" with no files. -/
def shellState0 : ShellState :=
  { hist := initHistoryState, cwd := "/", files := fun _ => none, mustExit := false }

/-- Reading the 1-based items i, i+1, ... of a list, as the range loops in
    write_to_history_file and append_to_history do, yields a suffix. -/
theorem filterMap_range_get_eq_drop {α : Type} (l : List α) :
    ∀ n j, l.length - j = n →
      (List.range' (j + 1) n).filterMap (fun i => l.get? (i - 1)) = l.drop j := by
  intro n
  induction n with
  | zero =>
    intro j hj
    have h : l.length ≤ j := Nat.le_of_sub_eq_zero hj
    simp [List.drop_eq_nil_of_le h]
  | succ n ih =>
    intro j hj
    have hjl : j < l.length := by omega
    rw [List.range'_succ, List.filterMap_cons]
    have h2 : l.get? (j + 1 - 1) = some l[j] := by
      simp [List.get?_eq_getElem?, List.getElem?_eq_getElem hjl]
    simp only [h2]
    rw [List.drop_eq_getElem_cons hjl]
    congr 1
    exact ih (j + 1) (by omega)

/-- write_to_history_file writes exactly the entries, in order. -/
theorem write_file_eq_entries (st : HistoryState) :
    write_to_history_file st = st.entries := by
  unfold write_to_history_file
  rw [show st.entries.length + 1 - 1 = st.entries.length - 0 by omega]
  rw [filterMap_range_get_eq_drop st.entries (st.entries.length - 0) 0 rfl]
  exact List.drop_zero st.entries

/-- The lines appended by append_to_history are the suffix of entries
    starting at 1-based index last_append_index. -/
theorem append_writes_drop (st : HistoryState) (file : List String)
    (h : 1 ≤ st.lastAppendIndex) :
    (append_to_history st file).1
      = file ++ st.entries.drop (st.lastAppendIndex - 1) := by
  obtain ⟨j, hj⟩ : ∃ j, st.lastAppendIndex = j + 1 :=
    ⟨st.lastAppendIndex - 1, by omega⟩
  unfold append_to_history
  simp only [hj]
  rw [show st.entries.length + 1 - (j + 1) = st.entries.length - j by omega]
  rw [filterMap_range_get_eq_drop st.entries (st.entries.length - j) j rfl]
  simp

/-- Mapping a function that fixes every element of a list is the identity. -/
theorem map_of_forall_eq {α : Type} (l : List α) (f : α → α)
    (h : ∀ a ∈ l, f a = a) : l.map f = l := by
  induction l with
  | nil => rfl
  | cons a t ih =>
    simp only [List.map_cons, h a (List.mem_cons_self a t),
      ih (fun x hx => h x (List.mem_cons_of_mem a hx))]

/-- Claim C1 is false as stated: record three entries, flush them with
    append_to_history (last_append_index becomes 4, i.e. lastFlushedIndex = 3),
    then fully reload from an empty file.  The reloaded history holds only the
    synthetic entry (length 1) while lastFlushedIndex is still 3, so the
    invariant lastFlushedIndex <= entries.length fails after loadFromFile, and
    lastFlushedIndex was not reset to 0 by the full reload. -/
theorem C1_counterexample :
    let st3 := (handle_history_from_filename
        (append_to_history (record (record (record initHistoryState "a") "b") "c") []).2
        (some []) "h.txt").1
    ¬ (st3.lastAppendIndex - 1 ≤ st3.entries.length) ∧ st3.lastAppendIndex - 1 ≠ 0 := by
  decide

/-- Claim C1 (amended): lastFlushedIndex (that is, last_append_index - 1) is 0
    initially, record preserves both it and the invariant
    lastFlushedIndex <= entries.length, and append_to_history sets it to
    exactly the entry count, never decreasing it while the invariant holds.
    However handle_history_from_filename (history -r) leaves last_append_index
    unchanged instead of resetting it, which is what breaks the invariant on a
    reload that shrinks the history. -/
theorem C1_invariant_amended :
    (initHistoryState.lastAppendIndex - 1 ≤ initHistoryState.entries.length)
    ∧ (∀ st : HistoryState, ∀ line : String,
        st.lastAppendIndex - 1 ≤ st.entries.length →
          (record st line).lastAppendIndex - 1 ≤ (record st line).entries.length
          ∧ (record st line).lastAppendIndex = st.lastAppendIndex)
    ∧ (∀ st : HistoryState, ∀ file : List String,
        (append_to_history st file).2.lastAppendIndex - 1
          = (append_to_history st file).2.entries.length)
    ∧ (∀ st : HistoryState, ∀ file : List String,
        st.lastAppendIndex - 1 ≤ st.entries.length →
          st.lastAppendIndex ≤ (append_to_history st file).2.lastAppendIndex)
    ∧ (∀ st : HistoryState, ∀ content : Option (List String), ∀ fn : String,
        (handle_history_from_filename st content fn).1.lastAppendIndex
          = st.lastAppendIndex) := by
  refine ⟨by decide, ?_, ?_, ?_, ?_⟩
  · intro st line h
    refine ⟨?_, rfl⟩
    simp only [record, List.length_append, List.length_cons, List.length_nil]
    omega
  · intro st file
    simp [append_to_history]
  · intro st file h
    simp only [append_to_history]
    omega
  · intro st content fn
    cases content <;> rfl

/-- Concrete instantiation of C1_invariant_amended: record preserves the
    invariant at a state holding one entry. -/
theorem C1_invariant_amended_witness :
    (record ⟨["a"], 1⟩ "b").lastAppendIndex - 1 ≤ (record ⟨["a"], 1⟩ "b").entries.length :=
  (C1_invariant_amended.2.1 ⟨["a"], 1⟩ "b" (by decide)).1

/-- Claim C2 is false as stated: writing the single entry "pwd" and reloading
    it puts the synthetic "history -r f" record FIRST (at index 1), with the
    file's entry at index 2 — the synthetic record is prepended, not appended,
    so the loaded entries are not the file's entries followed by the record. -/
theorem C2_counterexample :
    (handle_history_from_filename initHistoryState
        (some (write_to_history_file ⟨["pwd"], 1⟩)) "f").1.entries
      = ["history -r f", "pwd"]
    ∧ (handle_history_from_filename initHistoryState
        (some (write_to_history_file ⟨["pwd"], 1⟩)) "f").1.entries
      ≠ ["pwd", "history -r f"] := by
  decide

/-- Claim C2 (amended): writing a session's N entries with history -w and
    loading the file in a fresh session with history -r yields exactly the
    same N entry texts in the same order, but PRECEDED by the synthetic
    "history -r FILE" record: the synthetic record occupies index 1 and the
    file's entries occupy indices 2..N+1 (rather than starting at 1 with the
    record appended).  Holds for entry texts that python str.strip leaves
    unchanged and that contain no newline (any session entry, since the read
    loop strips input lines). -/
theorem C2_round_trip (st : HistoryState) (F : String)
    (hstrip : ∀ e ∈ st.entries, pyStrip e = e)
    (_hnl : ∀ e ∈ st.entries, '\n' ∉ e.toList) :
    (handle_history_from_filename initHistoryState
        (some (write_to_history_file st)) F).1.entries
      = ("history -r " ++ F) :: st.entries := by
  rw [write_file_eq_entries]
  show ["history -r " ++ F] ++ st.entries.map pyStrip
      = ("history -r " ++ F) :: st.entries
  rw [map_of_forall_eq st.entries pyStrip hstrip]
  rfl

/-- Concrete instantiation of C2_round_trip on a two-entry session. -/
theorem C2_round_trip_witness :
    (handle_history_from_filename initHistoryState
        (some (write_to_history_file ⟨["echo hi", "pwd"], 1⟩)) "f").1.entries
      = ["history -r f", "echo hi", "pwd"] :=
  (C2_round_trip ⟨["echo hi", "pwd"], 1⟩ "f" (by decide) (by decide)).trans (by decide)

/-- Claim C3 (confirmed): append_to_history writes exactly the entries with
    1-based index greater than lastFlushedIndex = last_append_index - 1 (the
    suffix from last_append_index on), then sets the cursor to the current
    entry count plus one; a second immediate append writes nothing, and a
    later append after further records writes exactly the new records, never
    re-writing an already-flushed entry. -/
theorem C3_append_exactly_unflushed (st : HistoryState) (file : List String)
    (h : 1 ≤ st.lastAppendIndex) :
    (append_to_history st file).1 = file ++ st.entries.drop (st.lastAppendIndex - 1)
    ∧ (append_to_history st file).2.lastAppendIndex = st.entries.length + 1
    ∧ (append_to_history (append_to_history st file).2 (append_to_history st file).1).1
        = (append_to_history st file).1
    ∧ (∀ newEntries file2 : List String,
        (append_to_history (⟨st.entries ++ newEntries,
            (append_to_history st file).2.lastAppendIndex⟩ : HistoryState) file2).1
          = file2 ++ newEntries) := by
  refine ⟨append_writes_drop st file h, rfl, ?_, ?_⟩
  · simp [append_to_history]
  · intro newEntries file2
    have h1 : (append_to_history st file).2.lastAppendIndex = st.entries.length + 1 := rfl
    rw [h1]
    rw [append_writes_drop
      (⟨st.entries ++ newEntries, st.entries.length + 1⟩ : HistoryState) file2
      (Nat.le_add_left 1 st.entries.length)]
    simp only [Nat.add_sub_cancel]
    rw [List.drop_left]

/-- Concrete instantiation of C3_append_exactly_unflushed: with entries
    ["a", "b"] and last_append_index 2, only "b" is appended and the cursor
    advances to 3. -/
theorem C3_append_exactly_unflushed_witness :
    (append_to_history ⟨["a", "b"], 2⟩ ["x"]).1 = ["x", "b"]
    ∧ (append_to_history ⟨["a", "b"], 2⟩ ["x"]).2.lastAppendIndex = 3 :=
  ⟨((C3_append_exactly_unflushed ⟨["a", "b"], 2⟩ ["x"] (by decide)).1).trans (by decide),
   ((C3_append_exactly_unflushed ⟨["a", "b"], 2⟩ ["x"] (by decide)).2.1).trans (by decide)⟩

/-- Claim C4 is false as stated: "cd" is in the canonical builtin set, but it
    is missing from TYPES_BUILTIN, so (with nothing resolvable on PATH)
    type cd reports "cd: not found" instead of reporting a shell builtin. -/
theorem C4_counterexample :
    handle_type (fun _ => none) ["cd"] = "cd: not found"
    ∧ handle_type (fun _ => none) ["cd"] ≠ "cd is a shell builtin" := by
  decide

/-- Claim C4 (amended): for every name B in the builtin set the code actually
    checks, {echo, type, exit, pwd, history} — which omits cd — type B
    reports B as a shell builtin, whatever PATH resolves. -/
theorem C4_builtin_reported (which : String → Option String) (B : String)
    (h : B ∈ TYPES_BUILTIN) :
    handle_type which [B] = B ++ " is a shell builtin" := by
  simp only [TYPES_BUILTIN, List.mem_cons, List.not_mem_nil, or_false] at h
  rcases h with rfl | rfl | rfl | rfl | rfl <;>
    simp [handle_type, TYPE_TEMPLATE, TYPES_BUILTIN, String.join]

/-- Concrete instantiation of C4_builtin_reported at B = "echo". -/
theorem C4_builtin_reported_witness :
    handle_type (fun _ => none) ["echo"] = "echo is a shell builtin" :=
  C4_builtin_reported (fun _ => none) "echo" (by decide)

/-- Claim C5 is a code bug in the program: a whitespace-only input line is
    stripped to the empty string, which run adds to the readline history
    BEFORE dispatching; split_command then raises an uncaught ValueError
    (unpacking the empty token list shlex.split returns), aborting the read
    loop — not the claimed silent no-op. -/
theorem C5_empty_line_crashes :
    (run_step ctx0 shellState0 "   ").raised = some PyError.unpackEmpty
    ∧ (run_step ctx0 shellState0 "   ").st.hist.entries = [""]
    ∧ (run_step ctx0 shellState0 "").raised = some PyError.unpackEmpty := by
  decide

/-- Claim C6 is a code bug in the program: a line with an unterminated quote
    is first added to the readline history, then shlex.split raises
    ValueError("No closing quotation"), which nothing catches: no message is
    printed by the shell and the read loop aborts. -/
theorem C6_unterminated_quote_crashes :
    (run_step ctx0 shellState0 ("echo " ++ String.mk [squote] ++ "abc")).raised
      = some PyError.noClosingQuotation
    ∧ ("echo " ++ String.mk [squote] ++ "abc")
        ∈ (run_step ctx0 shellState0 ("echo " ++ String.mk [squote] ++ "abc")).st.hist.entries
    ∧ (run_step ctx0 shellState0 ("echo " ++ String.mk [squote] ++ "abc")).output = [] := by
  decide

/-- Claim C7 is a code bug in the program: history -r on an unopenable file
    first clears the in-memory history and adds the synthetic record, and
    only then fails to open the file; the FileNotFoundError escapes uncaught
    (the startup loader load_history_file, by contrast, suppresses OSError).
    So the entries are clobbered, not left unchanged, and the error aborts
    the session. -/
theorem C7_load_missing_file_crashes :
    (run_step ctx0 { shellState0 with hist := ⟨["a", "b"], 1⟩ } "history -r missing.txt").raised
      = some PyError.fileNotFound
    ∧ (run_step ctx0 { shellState0 with
        hist := ⟨["a", "b"], 1⟩ } "history -r missing.txt").st.hist.entries
      = ["history -r missing.txt"]
    ∧ (handle_history_from_filename ⟨["a", "b"], 1⟩ none "missing.txt").2 = true := by
  decide

/-- Claim C8 is false as stated: cd displays the pathlib-normalised argument,
    so for the nonexistent path "foo//" the message is
    "cd: foo: No such file or directory", not "cd: foo//: ...". -/
theorem C8_counterexample :
    (handle_cd ctx0 "/w" ["foo//"]).2.1 = ["cd: foo: No such file or directory"]
    ∧ (handle_cd ctx0 "/w" ["foo//"]).2.1 ≠ ["cd: foo//: No such file or directory"] := by
  decide

/-- Claim C8 (amended): for every path P that does not begin with a "~"
    segment after normalisation and whose resolved target is missing, cd P
    leaves the working directory unchanged, raises nothing (the session
    continues), and emits exactly "cd: Q: No such file or directory" where Q
    is the pathlib normalisation of P (equal to P whenever P is already in
    normal form). -/
theorem C8_cd_missing_path (ctx : Ctx) (cwd P : String)
    (hP : (pyPathStr P).toList.head? ≠ some '~')
    (hmiss : ctx.pathKind (resolveChdir cwd (pyPathStr P)) = PathKind.missing) :
    handle_cd ctx cwd [P]
      = (cwd, ["cd: " ++ pyPathStr P ++ ": No such file or directory"], none) := by
  have hjoin : String.join [P] = P := by simp [String.join]
  have hexp : expanduser ctx.home ctx.userHome (pyPathStr P) = some (pyPathStr P) := by
    unfold expanduser
    cases hl : (pyPathStr P).toList with
    | nil => rfl
    | cons c rest =>
      rw [hl] at hP
      simp only [List.head?_cons, ne_eq, Option.some.injEq] at hP
      have hc : (c == '~') = false := by
        simp only [beq_eq_false_iff_ne, ne_eq]
        exact hP
      simp [hc]
  unfold handle_cd
  rw [hjoin]
  simp only [hexp, hmiss]

/-- Concrete instantiation of C8_cd_missing_path: cd to the missing,
    already-normal path "nope". -/
theorem C8_cd_missing_path_witness :
    handle_cd ctx0 "/w" ["nope"] = ("/w", ["cd: nope: No such file or directory"], none) :=
  (C8_cd_missing_path ctx0 "/w" "nope" (by decide) (by decide)).trans (by decide)

/-- Claim C9 is false as stated: with an empty PATH the candidate list for
    the empty word is the raw tuple order ["echo", "type", "exit", "pwd",
    "cd"], which is not sorted ("type" precedes "exit" although
    "exit" <= "type"); the canonical builtin "history" is never a candidate;
    and a name reachable through two PATH directories is listed twice, so the
    list is not name-deduplicated either. -/
theorem C9_counterexample :
    complete_matches (get_options (fun _ => none) []) ""
      = ["echo", "type", "exit", "pwd", "cd"]
    ∧ ¬ (("type" : String) ≤ "exit")
    ∧ "history" ∉ complete_matches (get_options (fun _ => none) []) ""
    ∧ (complete_matches
        (get_options (fun n => if n = "foo" then some "/opt/foo" else none)
          [some [⟨"foo", true⟩], some [⟨"foo", true⟩]]) "").count "foo" = 2 := by
  refine ⟨by decide, ?_, by decide, by decide⟩
  rw [String.le_iff_toList_le]
  decide

/-- Claim C9 (amended): the completer draws candidates from the fixed tuple
    (echo, type, exit, pwd, cd) followed by the PATH executables in scan
    order — neither sorted nor deduplicated, and without "history" — keeping
    exactly those that start with the partial word; the empty word yields the
    full candidate list, and complete enumerates the matches by state with a
    trailing space each. -/
theorem C9_completion_amended (which : String → Option String)
    (dirs : List (Option (List DirEntry))) (text : String) (h : text ≠ "") :
    (∀ s, s ∈ complete_matches (get_options which dirs) text ↔
        s ∈ get_options which dirs ∧ s.startsWith text = true)
    ∧ complete_matches (get_options which dirs) "" = get_options which dirs
    ∧ (∀ k, complete (get_options which dirs) text k
        = (((get_options which dirs).filter (fun o => o.startsWith text)).get? k).map
            (fun m => m ++ " ")) := by
  refine ⟨?_, by simp [complete_matches], ?_⟩
  · intro s
    simp only [complete_matches, if_neg h]
    exact List.mem_filter
  · intro k
    simp only [complete, complete_matches, if_neg h]

/-- Concrete instantiation of C9_completion_amended at the word "ec". -/
theorem C9_completion_amended_witness :
    ("echo" ∈ complete_matches (get_options (fun _ => none) []) "ec" ↔
      "echo" ∈ get_options (fun _ => none) [] ∧ "echo".startsWith "ec" = true) :=
  (C9_completion_amended (fun _ => none) [] "ec" (by decide)).1 "echo"

/-- Claim C10 (confirmed): cd with no argument joins the empty argument list
    to "", which pathlib renders as ".", and chdir to "." resolves to the
    current working directory itself; when that directory exists (the normal
    case), the state is unchanged, nothing is printed and nothing is
    raised. -/
theorem C10_cd_no_args (ctx : Ctx) (cwd : String)
    (hnorm : pyPathStr cwd = cwd)
    (hdir : ctx.pathKind cwd = PathKind.dir) :
    handle_cd ctx cwd [] = (cwd, [], none) := by
  have hdot : pyPathStr (String.join ([] : List String)) = "." := by decide
  have hexp : expanduser ctx.home ctx.userHome "." = some "." := by
    unfold expanduser
    have hl : (".").toList = ['.'] := by decide
    rw [hl]
    rfl
  have hres : resolveChdir cwd "." = cwd := by
    unfold resolveChdir
    rw [if_pos (by decide)]
    have hseg : segsOf (".").toList = ([] : List (List Char)) := by decide
    rw [hseg, List.append_nil]
    exact hnorm
  unfold handle_cd
  rw [hdot]
  simp only [hexp, hres, hdir]

/-- Concrete instantiation of C10_cd_no_args at the existing directory
    "/tmp". -/
theorem C10_cd_no_args_witness :
    handle_cd ctxDir "/tmp" [] = ("/tmp", [], none) :=
  C10_cd_no_args ctxDir "/tmp" (by decide) rfl

end ShellSpec
